import Mathlib

/-!
Verification of the SoftLayer API transport layer (SoftLayer/transports.py).

The Python module is shallowly embedded below.  Python dicts are modelled as
insertion-ordered association lists (a key update replaces the value in place,
a fresh key is appended at the end, matching CPython dict semantics); Python
values that can flow through a request are modelled by the inductive `SLValue`.
Serialization boundaries (the XML-RPC envelope, `json.dumps`) are outside the
embedding: structured values stand for their serialized forms, since nothing
in the transport logic re-inspects a serialized string.  Mutation of the
request object is modelled by explicit state passing: each transport's
preparation phase returns the post-call request object next to the wire plan,
so aliasing (XML-RPC's `headers = request.headers`) is visible as a changed
request, while REST's `request.headers.copy()` leaves the request unchanged.
-/

namespace SLT

/-- Python values reachable from a transport request or response. -/
inductive SLValue where
  | null
  | bool (b : Bool)
  | int (n : Int)
  | str (s : String)
  | list (xs : List SLValue)
  | dict (fields : List (String × SLValue))

/-- A SoftLayer object mask as documented on `Request.mask`: a dict or a string. -/
inductive PyMask where
  | str (s : String)
  | dict (d : List (String × SLValue))

/-- Insertion-ordered dict update `d[k] = v`: replace in place, else append. -/
def dictSet {β : Type} (d : List (String × β)) (k : String) (v : β) : List (String × β) :=
  match d with
  | [] => [(k, v)]
  | (k', v') :: rest => if k = k' then (k, v) :: rest else (k', v') :: dictSet rest k v

/-- Python `d.setdefault(k, v)`: keep an existing entry, else append `(k, v)`. -/
def dictSetdefault {β : Type} (d : List (String × β)) (k : String) (v : β) :
    List (String × β) :=
  match d.lookup k with
  | some _ => d
  | none => d ++ [(k, v)]

/-- Python whitespace recognized by `str.strip()` (the ASCII cases). -/
def isPySpace (c : Char) : Bool :=
  c = ' ' || c = '\t' || c = '\n' || c = '\r' || c = '\x0b' || c = '\x0c'

/-- `str.strip()` on the character list: drop whitespace from both ends. -/
def pyStripList (l : List Char) : List Char :=
  ((l.dropWhile isPySpace).reverse.dropWhile isPySpace).reverse

/-- Python `s.strip()`. -/
def pyStrip (s : String) : String := String.mk (pyStripList s.data)

/-- Python `s.startswith(p)`. -/
def pyStartsWith (s p : String) : Bool := p.data.isPrefixOf s.data

/-- `_format_object_mask` (transports.py:403): strip the string mask and wrap
it as `mask[...]` unless it already starts with `mask` or `[`. -/
def _format_object_mask (objectmask : String) : String :=
  let objectmask := pyStrip objectmask
  if !(pyStartsWith objectmask "mask") && !(pyStartsWith objectmask "[") then
    "mask[" ++ objectmask ++ "]"
  else
    objectmask

/-- `_format_object_mask_xmlrpc` (transports.py:387): a dict mask goes under the
service-specific header key unformatted; a string mask goes under the generic
key after `_format_object_mask`.  Returns the single header entry produced. -/
def _format_object_mask_xmlrpc (objectmask : PyMask) (service : String) :
    String × SLValue :=
  match objectmask with
  | PyMask.dict d => (service ++ "ObjectMask", SLValue.dict [("mask", SLValue.dict d)])
  | PyMask.str s =>
      ("SoftLayer_ObjectMask", SLValue.dict [("mask", SLValue.str (_format_object_mask s))])

/-- `REST_SPECIAL_METHODS` (transports.py:34). -/
def REST_SPECIAL_METHODS : List (String × String) :=
  [("deleteObject", "DELETE"),
   ("createObject", "POST"),
   ("createObjects", "POST"),
   ("editObject", "PUT"),
   ("editObjects", "PUT")]

/-- The kinds of the typed exceptions raised by the transport layer
(SoftLayer.exceptions), plus Python's builtin NotImplementedError used by the
fixture transport. -/
inductive ErrKind where
  | NotWellFormed
  | UnsupportedEncoding
  | InvalidCharacter
  | SpecViolation
  | MethodNotFound
  | InvalidMethodParameters
  | InternalError
  | ApplicationError
  | RemoteSystemError
  | TransportError
  | SoftLayerAPIError
  | NotImplementedError
deriving DecidableEq

/-- A raised exception: its kind, its fault-code-or-status argument, and its
message argument.  NotImplementedError takes only a message; its code is null. -/
structure SLError where
  kind : ErrKind
  code : SLValue
  msg : SLValue

/-- `error_mapping` (transports.py:202): XML-RPC fault code to exception class. -/
def error_mapping : List (String × ErrKind) :=
  [("-32700", ErrKind.NotWellFormed),
   ("-32701", ErrKind.UnsupportedEncoding),
   ("-32702", ErrKind.InvalidCharacter),
   ("-32600", ErrKind.SpecViolation),
   ("-32601", ErrKind.MethodNotFound),
   ("-32602", ErrKind.InvalidMethodParameters),
   ("-32603", ErrKind.InternalError),
   ("-32500", ErrKind.ApplicationError),
   ("-32400", ErrKind.RemoteSystemError),
   ("-32300", ErrKind.TransportError)]

/-- transports.py:214: `error_mapping.get(ex.faultCode, SoftLayerAPIError)`,
then `raise _ex(ex.faultCode, ex.faultString)`. -/
def mapXmlRpcFault (faultCode faultString : String) : SLError :=
  { kind := (error_mapping.lookup faultCode).getD ErrKind.SoftLayerAPIError,
    code := SLValue.str faultCode,
    msg := SLValue.str faultString }

/-- Python `int(s)` on a string: strip whitespace, optional sign, decimal
digits; anything else raises ValueError (modelled as `none`). -/
def pyIntParse (s : String) : Option Int :=
  let core := (pyStrip s).data
  let signDigits : Int × List Char :=
    match core with
    | '-' :: rest => (-1, rest)
    | '+' :: rest => (1, rest)
    | l => (1, l)
  if signDigits.2 ≠ [] ∧ signDigits.2.all Char.isDigit then
    some (signDigits.1 * Int.ofNat
      (signDigits.2.foldl (fun acc c => acc * 10 + (c.toNat - '0'.toNat)) 0))
  else
    none

/-- The decoded value of one successful call: a plain value, or a
SoftLayerListResult (transports.py:104) pairing the items with total_count. -/
inductive SLResult where
  | value (v : SLValue)
  | listResult (items : List SLValue) (total_count : Int)

/-- transports.py:193-198 and 322-328: wrap a decoded list into a
SoftLayerListResult using `int(resp.headers.get('softlayer-total-items', 0))`;
a present but non-numeric header makes `int` raise ValueError (the error). -/
def wrapResult (result : SLValue) (respHeaders : List (String × String)) :
    Except String SLResult :=
  match result with
  | SLValue.list xs =>
      match respHeaders.lookup "softlayer-total-items" with
      | none => Except.ok (SLResult.listResult xs 0)
      | some s =>
          match pyIntParse s with
          | some n => Except.ok (SLResult.listResult xs n)
          | none => Except.error ("invalid literal for int() with base 10: " ++ s)
  | v => Except.ok (SLResult.value v)

/-- What one send produces: a result, a raised typed exception, or an uncaught
Python exception (e.g. ValueError from `int`). -/
inductive Outcome where
  | ok (r : SLResult)
  | raised (e : SLError)
  | crashed (exc : String)

/-- The decoded disposition of one XML-RPC wire exchange, mirroring the
`try` block of XmlRpcTransport (transports.py:181-219): a non-2xx status
(`raise_for_status`, which wins over fault decoding), an XML-RPC fault, or a
decoded first return value with the response headers. -/
inductive WireResp where
  | httpError (status : Int) (msg : String)
  | fault (faultCode : String) (faultString : String)
  | success (result : SLValue) (respHeaders : List (String × String))

/-- XmlRpcTransport response handling (transports.py:192-219). -/
def xmlrpcHandleResponse (resp : WireResp) : Outcome :=
  match resp with
  | WireResp.httpError status msg =>
      Outcome.raised
        { kind := ErrKind.TransportError, code := SLValue.int status, msg := SLValue.str msg }
  | WireResp.fault c m => Outcome.raised (mapXmlRpcFault c m)
  | WireResp.success result respHeaders =>
      match wrapResult result respHeaders with
      | Except.ok r => Outcome.ok r
      | Except.error e => Outcome.crashed e

/-- The decoded disposition of one REST wire exchange (transports.py:308-334):
a non-2xx status with the parsed JSON error body (`none` when the body is not
JSON), or a decoded JSON result with the response headers. -/
inductive RestResp where
  | httpError (status : Int) (body : Option SLValue)
  | success (result : SLValue) (respHeaders : List (String × String))

/-- RestTransport response handling (transports.py:321-334):
`json.loads(ex.response.text)['error']` becomes the API error message; a body
that is not a JSON object with an `error` key crashes during that decode. -/
def restHandleResponse (resp : RestResp) : Outcome :=
  match resp with
  | RestResp.httpError status body =>
      match body with
      | some (SLValue.dict d) =>
          match d.lookup "error" with
          | some m =>
              Outcome.raised
                { kind := ErrKind.SoftLayerAPIError, code := SLValue.int status, msg := m }
          | none => Outcome.crashed "KeyError: error"
      | some _ => Outcome.crashed "TypeError: response body is not a JSON object"
      | none => Outcome.crashed "JSONDecodeError"
  | RestResp.success result respHeaders =>
      match wrapResult result respHeaders with
      | Except.ok r => Outcome.ok r
      | Except.error e => Outcome.crashed e

/-- The transport request object (transports.py:57), field for field.  The
identifier is the integer object id placed into InitParameters and the REST
URL.  `method` is modelled as the required string the spec declares (the
source's `None` defaults are pre-call placeholders). -/
structure Request where
  service : String
  method : String
  args : List SLValue
  headers : List (String × SLValue)
  transport_user : Option String
  transport_password : Option String
  transport_headers : List (String × String)
  verify : Option Bool
  cert : Option String
  identifier : Option Int
  mask : Option PyMask
  filter : Option (List (String × SLValue))
  limit : Option Int
  offset : Option Int

/-- Everything XmlRpcTransport hands to `client.request` (transports.py:182). -/
structure XmlRpcPlan where
  largs : List SLValue
  url : String
  verify : Bool

/-- The request-preparation phase of `XmlRpcTransport.__call__`
(transports.py:141-174).  `headers = request.headers` aliases the caller's
dict, so every header injection mutates the request: the returned `Request` is
the caller's descriptor after the call. -/
def xmlrpcPrepare (endpoint_url user_agent : String) (tverify : Bool)
    (request : Request) : Request × XmlRpcPlan :=
  let headers := request.headers
  let headers :=
    match request.identifier with
    | some i =>
        dictSet headers (request.service ++ "InitParameters")
          (SLValue.dict [("id", SLValue.int i)])
    | none => headers
  let headers :=
    match request.mask with
    | some m =>
        let entry := _format_object_mask_xmlrpc m request.service
        dictSet headers entry.1 entry.2
    | none => headers
  let headers :=
    match request.filter with
    | some f => dictSet headers (request.service ++ "ObjectFilter") (SLValue.dict f)
    | none => headers
  let headers :=
    match request.limit with
    | some l =>
        if l ≠ 0 then
          dictSet headers "resultLimit"
            (SLValue.dict
              [("limit", SLValue.int l), ("offset", SLValue.int (request.offset.getD 0))])
        else headers
    | none => headers
  let largs := SLValue.dict [("headers", SLValue.dict headers)] :: request.args
  let th := dictSetdefault request.transport_headers "Content-Type" "application/xml"
  let th := dictSetdefault th "User-Agent" user_agent
  ({ request with headers := headers, transport_headers := th },
   { largs := largs,
     url := endpoint_url ++ "/" ++ request.service,
     verify := request.verify.getD tverify })

/-- HTTP-method and body selection of `RestTransport.__call__`
(transports.py:274-288): look the method name up in REST_SPECIAL_METHODS,
default to GET, then force POST with body parameters when args are present. -/
def restMethodAndBody (request : Request) : String × Option SLValue :=
  let method := (REST_SPECIAL_METHODS.lookup request.method).getD "GET"
  if request.args.isEmpty then
    (method, none)
  else
    ("POST", some (SLValue.dict [("parameters", SLValue.list request.args)]))

/-- Everything RestTransport hands to `client.request` (transports.py:309). -/
structure RestPlan where
  params : List (String × SLValue)
  auth : Option (String × Option String)
  verb : String
  body : Option SLValue
  url : String
  verify : Bool

/-- The request-preparation phase of `RestTransport.__call__`
(transports.py:254-302).  `params = request.headers.copy()` works on a copy,
so the returned `Request` is the caller's descriptor unchanged.  A truthy dict
mask reaches `_format_object_mask`, whose `.strip()` raises AttributeError on
a dict: that crash is modelled as `none`. -/
def restPrepare (endpoint_url : String) (tverify : Bool) (request : Request) :
    Request × Option RestPlan :=
  let params := request.headers
  let maskStep : Option (List (String × SLValue)) :=
    match request.mask with
    | some (PyMask.str s) =>
        if s ≠ "" then
          some (dictSet params "objectMask" (SLValue.str (_format_object_mask s)))
        else some params
    | some (PyMask.dict d) => if d.isEmpty then some params else none
    | none => some params
  match maskStep with
  | none => (request, none)
  | some params =>
      let params :=
        match request.limit with
        | some l => if l ≠ 0 then dictSet params "limit" (SLValue.int l) else params
        | none => params
      let params :=
        match request.offset with
        | some o => if o ≠ 0 then dictSet params "offset" (SLValue.int o) else params
        | none => params
      let params :=
        match request.filter with
        | some f => if f.isEmpty then params else dictSet params "objectFilter" (SLValue.dict f)
        | none => params
      let auth :=
        match request.transport_user with
        | some u => if u ≠ "" then some (u, request.transport_password) else none
        | none => none
      let mb := restMethodAndBody request
      let url_parts := [endpoint_url, request.service]
      let url_parts :=
        match request.identifier with
        | some i => url_parts ++ [toString i]
        | none => url_parts
      let url_parts := url_parts ++ [request.method]
      (request,
       some { params := params,
              auth := auth,
              verb := mb.1,
              body := mb.2,
              url := String.intercalate "/" url_parts ++ ".json",
              verify := request.verify.getD tverify })

/-- The mutable state of a TimingTransport (transports.py:337): its buffer of
(request, start time, elapsed) records. -/
structure TimingState where
  last_calls : List (Request × Nat × Nat)

/-- `TimingTransport.__call__` (transports.py:344): delegate to the wrapped
transport, then append a timing record.  A raised or crashed inner call
propagates before the append is reached, leaving the buffer untouched.
Wall-clock readings are passed in as the two timestamps. -/
def timingCall (transport : Request → Outcome) (start_time end_time : Nat)
    (st : TimingState) (call : Request) : TimingState × Outcome :=
  match transport call with
  | Outcome.ok r =>
      ({ last_calls := st.last_calls ++ [(call, start_time, end_time - start_time)] },
       Outcome.ok r)
  | e => (st, e)

/-- `TimingTransport.get_last_calls` (transports.py:354): return the buffer and
reset it to empty. -/
def get_last_calls (st : TimingState) : List (Request × Nat × Nat) × TimingState :=
  (st.last_calls, { last_calls := [] })

/-- `FixtureTransport.__call__` (transports.py:367).  The fixture package is
abstracted as a map from service name to an optional module, each module a map
from method name to an optional canned value; a missing module models the
ImportError branch and a missing attribute the AttributeError branch. -/
def fixtureCall (fixtureModules : String → Option (String → Option SLValue))
    (call : Request) : Outcome :=
  match fixtureModules call.service with
  | none =>
      Outcome.raised
        { kind := ErrKind.NotImplementedError,
          code := SLValue.null,
          msg := SLValue.str (call.service ++ " fixture is not implemented") }
  | some m =>
      match m call.method with
      | none =>
          Outcome.raised
            { kind := ErrKind.NotImplementedError,
              code := SLValue.null,
              msg := SLValue.str
                (call.service ++ "::" ++ call.method ++ " fixture is not implemented") }
      | some v => Outcome.ok (SLResult.value v)

/-- A minimal request value used for concrete instances in the theorems. -/
def baseReq : Request :=
  { service := "SoftLayer_Account",
    method := "getObject",
    args := [],
    headers := [],
    transport_user := none,
    transport_password := none,
    transport_headers := [],
    verify := none,
    cert := none,
    identifier := none,
    mask := none,
    filter := none,
    limit := none,
    offset := none }

/-- A request carrying a caller-set transport header, for concrete instances. -/
def customHeaderReq : Request :=
  { baseReq with transport_headers := [("User-Agent", "custom-agent")] }

/-- A wrapped transport that always succeeds, for concrete timing instances. -/
def okTransport : Request → Outcome := fun _ => Outcome.ok (SLResult.value SLValue.null)

/-- A concrete fixture environment: one service module with one method. -/
def fixEnv : String → Option (String → Option SLValue) :=
  fun s =>
    if s = "SoftLayer_Account" then
      some (fun m => if m = "getObject" then some (SLValue.str "canned-account") else none)
    else
      none

/-! Helper lemmas about the dict model and Python string stripping. -/

theorem lookup_dictSet_self {β : Type} (d : List (String × β)) (k : String) (v : β) :
    (dictSet d k v).lookup k = some v := by
  induction d with
  | nil => simp [dictSet, List.lookup]
  | cons p rest ih =>
      obtain ⟨k', v'⟩ := p
      by_cases h : k = k'
      · simp [dictSet, h, List.lookup]
      · simp [dictSet, h, List.lookup, ih, beq_eq_false_iff_ne.mpr h]

theorem lookup_dictSet_ne {β : Type} (d : List (String × β)) (k k' : String) (v : β)
    (h : k' ≠ k) : (dictSet d k v).lookup k' = d.lookup k' := by
  induction d with
  | nil => simp [dictSet, List.lookup, beq_eq_false_iff_ne.mpr h]
  | cons p rest ih =>
      obtain ⟨k₀, v₀⟩ := p
      by_cases hk : k = k₀
      · subst hk
        simp [dictSet, List.lookup, beq_eq_false_iff_ne.mpr h]
      · by_cases hk' : k' = k₀
        · simp [dictSet, hk, List.lookup, hk']
        · simp [dictSet, hk, List.lookup, beq_eq_false_iff_ne.mpr hk', ih]

theorem lookup_dictSetdefault_of_some {β : Type} (d : List (String × β)) (k k' : String)
    (v w : β) (h : d.lookup k' = some w) : (dictSetdefault d k v).lookup k' = some w := by
  unfold dictSetdefault
  cases hd : d.lookup k with
  | some _ => exact h
  | none =>
      rw [List.lookup_append, h]
      rfl

theorem lookup_eq_none_of_not_mem_keys {β : Type} (d : List (String × β)) (k : String)
    (h : ∀ p ∈ d, k ≠ p.1) : d.lookup k = none := by
  induction d with
  | nil => rfl
  | cons p rest ih =>
      obtain ⟨k₀, v₀⟩ := p
      have hne : k ≠ k₀ := h (k₀, v₀) (List.mem_cons_self _ _)
      simp only [List.lookup, beq_eq_false_iff_ne.mpr hne]
      exact ih fun q hq => h q (List.mem_cons_of_mem _ hq)

theorem dropWhile_head_not (p : Char → Bool) :
    ∀ (l : List Char) (a : Char) (t : List Char), l.dropWhile p = a :: t → p a = false := by
  intro l
  induction l with
  | nil => intro a t h; simp [List.dropWhile] at h
  | cons b bs ih =>
      intro a t h
      rw [List.dropWhile_cons] at h
      cases hpb : p b with
      | true => rw [hpb] at h; simp only [if_true] at h; exact ih a t h
      | false =>
          rw [hpb] at h
          simp only [Bool.false_eq_true, if_false] at h
          obtain ⟨rfl, -⟩ := List.cons.inj h
          exact hpb

theorem dropWhile_idem (p : Char → Bool) (l : List Char) :
    (l.dropWhile p).dropWhile p = l.dropWhile p := by
  induction l with
  | nil => rfl
  | cons b bs ih =>
      rw [List.dropWhile_cons]
      cases hpb : p b with
      | true => simpa [hpb] using ih
      | false => simp [List.dropWhile_cons, hpb]

theorem dropWhile_eq_self_of (p : Char → Bool) (l : List Char)
    (h : ∀ a t, l = a :: t → p a = false) : l.dropWhile p = l := by
  cases l with
  | nil => rfl
  | cons a t => simp [List.dropWhile_cons, h a t rfl]

theorem exists_append_dropWhile (p : Char → Bool) (l : List Char) :
    ∃ w, w ++ l.dropWhile p = l := by
  induction l with
  | nil => exact ⟨[], rfl⟩
  | cons a t ih =>
      cases hpa : p a with
      | true =>
          obtain ⟨w, hw⟩ := ih
          exact ⟨a :: w, by simp [List.dropWhile_cons, hpa, hw]⟩
      | false => exact ⟨[], by simp [List.dropWhile_cons, hpa]⟩

theorem pyStripList_idem (l : List Char) : pyStripList (pyStripList l) = pyStripList l := by
  unfold pyStripList
  have hvr : ((l.dropWhile isPySpace).reverse.dropWhile isPySpace).reverse.dropWhile isPySpace
      = ((l.dropWhile isPySpace).reverse.dropWhile isPySpace).reverse := by
    apply dropWhile_eq_self_of
    intro a t hat
    obtain ⟨w, hw⟩ :=
      exists_append_dropWhile isPySpace (l.dropWhile isPySpace).reverse
    have hu : l.dropWhile isPySpace
        = ((l.dropWhile isPySpace).reverse.dropWhile isPySpace).reverse ++ w.reverse := by
      have h2 := congrArg List.reverse hw
      simpa using h2.symm
    rw [hat] at hu
    exact dropWhile_head_not isPySpace l a (t ++ w.reverse) (by simpa using hu)
  rw [hvr, List.reverse_reverse, dropWhile_idem]

theorem pyStrip_idem (s : String) : pyStrip (pyStrip s) = pyStrip s :=
  congrArg String.mk (pyStripList_idem s.data)

theorem pyStripList_noop_sandwich (a b : Char) (mid : List Char)
    (ha : isPySpace a = false) (hb : isPySpace b = false) :
    pyStripList (a :: (mid ++ [b])) = a :: (mid ++ [b]) := by
  unfold pyStripList
  rw [List.dropWhile_cons, ha]
  simp only [Bool.false_eq_true, if_false]
  have h1 : (a :: (mid ++ [b])).reverse = b :: (mid.reverse ++ [a]) := by simp
  rw [h1, List.dropWhile_cons, hb]
  simp

theorem pyStrip_wrapped (t : String) :
    pyStrip ("mask[" ++ t ++ "]") = "mask[" ++ t ++ "]" := by
  have hd : ("mask[" ++ t ++ "]").data
      = 'm' :: (('a' :: 's' :: 'k' :: '[' :: t.data) ++ [']']) := by
    rw [String.data_append, String.data_append]
    rfl
  show String.mk (pyStripList ("mask[" ++ t ++ "]").data) = "mask[" ++ t ++ "]"
  rw [hd, pyStripList_noop_sandwich 'm' ']' _ (by decide) (by decide), ← hd]

theorem startsWith_wrapped (t : String) :
    pyStartsWith ("mask[" ++ t ++ "]") "mask" = true := rfl

/-! The claims. -/

/-- C1: for every XML-RPC fault whose fault code is one of the ten codes in the
fault mapping table, send raises the exact corresponding typed error kind with
the original fault code and message preserved; for every fault code outside
the table it raises the generic SoftLayerAPIError kind with code and message. -/
theorem C1_fault_mapping :
    (∀ m, xmlrpcHandleResponse (WireResp.fault "-32700" m) = Outcome.raised
      { kind := ErrKind.NotWellFormed, code := SLValue.str "-32700", msg := SLValue.str m })
  ∧ (∀ m, xmlrpcHandleResponse (WireResp.fault "-32701" m) = Outcome.raised
      { kind := ErrKind.UnsupportedEncoding, code := SLValue.str "-32701", msg := SLValue.str m })
  ∧ (∀ m, xmlrpcHandleResponse (WireResp.fault "-32702" m) = Outcome.raised
      { kind := ErrKind.InvalidCharacter, code := SLValue.str "-32702", msg := SLValue.str m })
  ∧ (∀ m, xmlrpcHandleResponse (WireResp.fault "-32600" m) = Outcome.raised
      { kind := ErrKind.SpecViolation, code := SLValue.str "-32600", msg := SLValue.str m })
  ∧ (∀ m, xmlrpcHandleResponse (WireResp.fault "-32601" m) = Outcome.raised
      { kind := ErrKind.MethodNotFound, code := SLValue.str "-32601", msg := SLValue.str m })
  ∧ (∀ m, xmlrpcHandleResponse (WireResp.fault "-32602" m) = Outcome.raised
      { kind := ErrKind.InvalidMethodParameters, code := SLValue.str "-32602",
        msg := SLValue.str m })
  ∧ (∀ m, xmlrpcHandleResponse (WireResp.fault "-32603" m) = Outcome.raised
      { kind := ErrKind.InternalError, code := SLValue.str "-32603", msg := SLValue.str m })
  ∧ (∀ m, xmlrpcHandleResponse (WireResp.fault "-32500" m) = Outcome.raised
      { kind := ErrKind.ApplicationError, code := SLValue.str "-32500", msg := SLValue.str m })
  ∧ (∀ m, xmlrpcHandleResponse (WireResp.fault "-32400" m) = Outcome.raised
      { kind := ErrKind.RemoteSystemError, code := SLValue.str "-32400", msg := SLValue.str m })
  ∧ (∀ m, xmlrpcHandleResponse (WireResp.fault "-32300" m) = Outcome.raised
      { kind := ErrKind.TransportError, code := SLValue.str "-32300", msg := SLValue.str m })
  ∧ (∀ c m, c ∉ ["-32700", "-32701", "-32702", "-32600", "-32601",
                 "-32602", "-32603", "-32500", "-32400", "-32300"] →
      xmlrpcHandleResponse (WireResp.fault c m) = Outcome.raised
        { kind := ErrKind.SoftLayerAPIError, code := SLValue.str c, msg := SLValue.str m }) := by
  refine ⟨fun m => rfl, fun m => rfl, fun m => rfl, fun m => rfl, fun m => rfl, fun m => rfl,
          fun m => rfl, fun m => rfl, fun m => rfl, fun m => rfl, ?_⟩
  intro c m h
  simp only [List.mem_cons, List.not_mem_nil, or_false, not_or] at h
  obtain ⟨h1, h2, h3, h4, h5, h6, h7, h8, h9, h10⟩ := h
  simp [xmlrpcHandleResponse, mapXmlRpcFault, error_mapping, List.lookup,
        beq_eq_false_iff_ne.mpr h1, beq_eq_false_iff_ne.mpr h2, beq_eq_false_iff_ne.mpr h3,
        beq_eq_false_iff_ne.mpr h4, beq_eq_false_iff_ne.mpr h5, beq_eq_false_iff_ne.mpr h6,
        beq_eq_false_iff_ne.mpr h7, beq_eq_false_iff_ne.mpr h8, beq_eq_false_iff_ne.mpr h9,
        beq_eq_false_iff_ne.mpr h10]

/-- C1 witness: a fault code outside the table maps to the generic kind. -/
theorem C1_fault_mapping_witness :
    xmlrpcHandleResponse (WireResp.fault "SoftLayer_Exception_ObjectNotFound" "no such object")
      = Outcome.raised
        { kind := ErrKind.SoftLayerAPIError,
          code := SLValue.str "SoftLayer_Exception_ObjectNotFound",
          msg := SLValue.str "no such object" } :=
  C1_fault_mapping.2.2.2.2.2.2.2.2.2.2 "SoftLayer_Exception_ObjectNotFound" "no such object"
    (by decide)

/-- C3 counterexample: the input string " id " starts with neither the literal
prefix mask nor the bracket, yet the formatter returns the trimmed wrap
rather than wrapping the original string unmodified. -/
theorem C3_mask_counterexample :
    pyStartsWith " id " "mask" = false
  ∧ pyStartsWith " id " "[" = false
  ∧ _format_object_mask " id " = "mask[id]"
  ∧ "mask[id]" ≠ "mask[ id ]" := by decide

/-- C3 amended: the formatter first strips whitespace; if the trimmed mask
starts with neither mask nor the bracket, the result is the trimmed mask
wrapped; otherwise the result is the trimmed mask itself. -/
theorem C3_mask_amended (s : String) :
    (pyStartsWith (pyStrip s) "mask" = false → pyStartsWith (pyStrip s) "[" = false →
       _format_object_mask s = "mask[" ++ pyStrip s ++ "]")
  ∧ (pyStartsWith (pyStrip s) "mask" = true → _format_object_mask s = pyStrip s)
  ∧ (pyStartsWith (pyStrip s) "[" = true → _format_object_mask s = pyStrip s) := by
  refine ⟨fun h1 h2 => ?_, fun h1 => ?_, fun h2 => ?_⟩
  · simp [_format_object_mask, h1, h2]
  · simp [_format_object_mask, h1]
  · simp [_format_object_mask, h2]

/-- C3 witness: the amended statement evaluated at the concrete input " id ". -/
theorem C3_mask_amended_witness :
    _format_object_mask " id " = "mask[" ++ pyStrip " id " ++ "]" :=
  (C3_mask_amended " id ").1 (by decide) (by decide)

/-- C9: the string-mask formatter is idempotent: applying it twice yields the
same result as applying it once. -/
theorem C9_format_mask_idempotent (s : String) :
    _format_object_mask (_format_object_mask s) = _format_object_mask s := by
  cases h1 : pyStartsWith (pyStrip s) "mask" with
  | true => simp [_format_object_mask, pyStrip_idem, h1]
  | false =>
      cases h2 : pyStartsWith (pyStrip s) "[" with
      | true => simp [_format_object_mask, pyStrip_idem, h1, h2]
      | false => simp [_format_object_mask, h1, h2, pyStrip_wrapped, startsWith_wrapped]

/-- C4 counterexample: a list response whose softlayer-total-items header is
present but non-numeric does not produce total_count 0; the int() conversion
raises an uncaught ValueError instead. -/
theorem C4_total_count_counterexample :
    xmlrpcHandleResponse
        (WireResp.success (SLValue.list []) [("softlayer-total-items", "abc")])
      = Outcome.crashed "invalid literal for int() with base 10: abc"
  ∧ xmlrpcHandleResponse
        (WireResp.success (SLValue.list []) [("softlayer-total-items", "abc")])
      ≠ Outcome.ok (SLResult.listResult [] 0) :=
  ⟨rfl, fun h => nomatch h⟩

/-- C4 amended: for every successful send whose decoded result is a list, the
total_count equals the integer value of the softlayer-total-items header when
it is present and numeric, and equals 0 when it is absent, independently of
the returned items; a present non-numeric header instead raises ValueError. -/
theorem C4_total_count_amended (xs : List SLValue) (hs : List (String × String)) :
    (hs.lookup "softlayer-total-items" = none →
        xmlrpcHandleResponse (WireResp.success (SLValue.list xs) hs)
          = Outcome.ok (SLResult.listResult xs 0)
      ∧ restHandleResponse (RestResp.success (SLValue.list xs) hs)
          = Outcome.ok (SLResult.listResult xs 0))
  ∧ (∀ s n, hs.lookup "softlayer-total-items" = some s → pyIntParse s = some n →
        xmlrpcHandleResponse (WireResp.success (SLValue.list xs) hs)
          = Outcome.ok (SLResult.listResult xs n)
      ∧ restHandleResponse (RestResp.success (SLValue.list xs) hs)
          = Outcome.ok (SLResult.listResult xs n))
  ∧ (∀ s, hs.lookup "softlayer-total-items" = some s → pyIntParse s = none →
        xmlrpcHandleResponse (WireResp.success (SLValue.list xs) hs)
          = Outcome.crashed ("invalid literal for int() with base 10: " ++ s)) := by
  refine ⟨fun h => ?_, fun s n h1 h2 => ?_, fun s h1 h2 => ?_⟩
  · exact ⟨by simp [xmlrpcHandleResponse, wrapResult, h],
           by simp [restHandleResponse, wrapResult, h]⟩
  · exact ⟨by simp [xmlrpcHandleResponse, wrapResult, h1, h2],
           by simp [restHandleResponse, wrapResult, h1, h2]⟩
  · simp [xmlrpcHandleResponse, wrapResult, h1, h2]

/-- C4 witness: a numeric header of 42 yields total_count 42 on an empty page. -/
theorem C4_total_count_amended_witness :
    xmlrpcHandleResponse
        (WireResp.success (SLValue.list []) [("softlayer-total-items", "42")])
      = Outcome.ok (SLResult.listResult [] 42) :=
  ((C4_total_count_amended [] [("softlayer-total-items", "42")]).2.1 "42" 42
    (by decide) (by decide)).1

/-- C5: with empty args the REST transport maps deleteObject to DELETE,
createObject and createObjects to POST, editObject and editObjects to PUT,
and every other method name to GET; with non-empty args the verb is POST
regardless of the table and the body is the parameters object holding args. -/
theorem C5_rest_verbs :
    (∀ r : Request, r.args = [] → r.method = "deleteObject" →
        restMethodAndBody r = ("DELETE", none))
  ∧ (∀ r : Request, r.args = [] → r.method = "createObject" →
        restMethodAndBody r = ("POST", none))
  ∧ (∀ r : Request, r.args = [] → r.method = "createObjects" →
        restMethodAndBody r = ("POST", none))
  ∧ (∀ r : Request, r.args = [] → r.method = "editObject" →
        restMethodAndBody r = ("PUT", none))
  ∧ (∀ r : Request, r.args = [] → r.method = "editObjects" →
        restMethodAndBody r = ("PUT", none))
  ∧ (∀ r : Request, r.args = [] →
        r.method ∉ ["deleteObject", "createObject", "createObjects",
                    "editObject", "editObjects"] →
        restMethodAndBody r = ("GET", none))
  ∧ (∀ r : Request, r.args ≠ [] →
        restMethodAndBody r
          = ("POST", some (SLValue.dict [("parameters", SLValue.list r.args)]))) := by
  refine ⟨fun r ha hm => ?_, fun r ha hm => ?_, fun r ha hm => ?_, fun r ha hm => ?_,
          fun r ha hm => ?_, fun r ha hm => ?_, fun r ha => ?_⟩
  · simp [restMethodAndBody, ha, hm, REST_SPECIAL_METHODS, List.lookup]
  · simp [restMethodAndBody, ha, hm, REST_SPECIAL_METHODS, List.lookup]
  · simp [restMethodAndBody, ha, hm, REST_SPECIAL_METHODS, List.lookup]
  · simp [restMethodAndBody, ha, hm, REST_SPECIAL_METHODS, List.lookup]
  · simp [restMethodAndBody, ha, hm, REST_SPECIAL_METHODS, List.lookup]
  · simp only [List.mem_cons, List.not_mem_nil, or_false, not_or] at hm
    obtain ⟨h1, h2, h3, h4, h5⟩ := hm
    simp [restMethodAndBody, ha, REST_SPECIAL_METHODS, List.lookup,
          beq_eq_false_iff_ne.mpr h1, beq_eq_false_iff_ne.mpr h2, beq_eq_false_iff_ne.mpr h3,
          beq_eq_false_iff_ne.mpr h4, beq_eq_false_iff_ne.mpr h5]
  · cases hargs : r.args with
    | nil => exact absurd hargs ha
    | cons x xs => simp [restMethodAndBody, hargs]

/-- C5 witness: editObject with non-empty args still resolves to POST with the
parameters body, even though the table alone maps it to PUT. -/
theorem C5_rest_verbs_witness :
    restMethodAndBody { baseReq with method := "editObject", args := [SLValue.int 1] }
      = ("POST", some (SLValue.dict [("parameters", SLValue.list [SLValue.int 1])])) :=
  C5_rest_verbs.2.2.2.2.2.2
    { baseReq with method := "editObject", args := [SLValue.int 1] } (by simp)

/-- C6 counterexample: a descriptor with limit set to the integer 0 and offset
unset gets no resultLimit header at all, because the transport tests the
truthiness of limit. -/
theorem C6_result_limit_counterexample :
    ({ baseReq with limit := some 0 } : Request).limit = some 0
  ∧ ({ baseReq with limit := some 0 } : Request).offset = none
  ∧ (xmlrpcPrepare "https://api.softlayer.com/xmlrpc/v3.1" "softlayer-python" true
        { baseReq with limit := some 0 }).1.headers.lookup "resultLimit" = none :=
  ⟨rfl, rfl, rfl⟩

/-- C6 amended: for every descriptor with limit set to a nonzero value and
offset unset, the XML-RPC transport injects a resultLimit header whose limit
equals the descriptor limit and whose offset equals 0. -/
theorem C6_result_limit_amended (e ua : String) (tv : Bool) (r : Request) (l : Int)
    (hl : r.limit = some l) (hne : l ≠ 0) (ho : r.offset = none) :
    (xmlrpcPrepare e ua tv r).1.headers.lookup "resultLimit"
      = some (SLValue.dict [("limit", SLValue.int l), ("offset", SLValue.int 0)]) := by
  simp [xmlrpcPrepare, hl, ho, hne, lookup_dictSet_self]

/-- C6 witness: limit 25 with offset unset injects resultLimit limit 25 offset 0. -/
theorem C6_result_limit_amended_witness :
    (xmlrpcPrepare "E" "ua" true { baseReq with limit := some 25 }).1.headers.lookup
        "resultLimit"
      = some (SLValue.dict [("limit", SLValue.int 25), ("offset", SLValue.int 0)]) :=
  C6_result_limit_amended "E" "ua" true { baseReq with limit := some 25 } 25
    rfl (by decide) rfl

/-- C2 counterexample: the XML-RPC transport aliases the descriptor's own
headers dict and mutates it, and setdefault mutates the descriptor's
transport_headers: after the call both mappings of this descriptor changed. -/
theorem C2_mutation_counterexample :
    ({ baseReq with identifier := some 1234 } : Request).headers = []
  ∧ (xmlrpcPrepare "E" "ua" true { baseReq with identifier := some 1234 }).1.headers
      = [("SoftLayer_AccountInitParameters", SLValue.dict [("id", SLValue.int 1234)])]
  ∧ ({ baseReq with identifier := some 1234 } : Request).transport_headers = []
  ∧ (xmlrpcPrepare "E" "ua" true { baseReq with identifier := some 1234 }).1.transport_headers
      = [("Content-Type", "application/xml"), ("User-Agent", "ua")] :=
  ⟨rfl, rfl, rfl, rfl⟩

/-- C2 amended: the REST transport copies headers and leaves the descriptor
unchanged; the XML-RPC transport changes only the descriptor's headers (in
place, with the derived entries; untouched when there is nothing to inject)
and its transport_headers (only adding missing defaults, never overwriting a
caller-set entry); every other descriptor field is unchanged by both. -/
theorem C2_frame_amended (e ua : String) (tv : Bool) (r : Request) :
    (restPrepare e tv r).1 = r
  ∧ (xmlrpcPrepare e ua tv r).1
      = { r with headers := (xmlrpcPrepare e ua tv r).1.headers,
                 transport_headers := (xmlrpcPrepare e ua tv r).1.transport_headers }
  ∧ (r.identifier = none → r.mask = none → r.filter = none → r.limit = none →
      (xmlrpcPrepare e ua tv r).1.headers = r.headers)
  ∧ (∀ k v, r.transport_headers.lookup k = some v →
      (xmlrpcPrepare e ua tv r).1.transport_headers.lookup k = some v) := by
  refine ⟨?_, rfl, fun h1 h2 h3 h4 => ?_, fun k v hkv => ?_⟩
  · cases hm : r.mask with
    | none => simp [restPrepare, hm]
    | some pm =>
        cases pm with
        | str s => by_cases hs : s = "" <;> simp [restPrepare, hm, hs]
        | dict d => cases hd : d.isEmpty <;> simp [restPrepare, hm, hd]
  · simp [xmlrpcPrepare, h1, h2, h3, h4]
  · exact lookup_dictSetdefault_of_some _ _ _ _ _
      (lookup_dictSetdefault_of_some _ _ _ _ _ hkv)

/-- C2 witness: the amended statement at concrete descriptors — REST returns
the descriptor unchanged, a caller-set User-Agent survives setdefault. -/
theorem C2_frame_amended_witness :
    (restPrepare "E" true baseReq).1 = baseReq
  ∧ (xmlrpcPrepare "E" "ua" true baseReq).1.headers = baseReq.headers
  ∧ (xmlrpcPrepare "E" "ua" true customHeaderReq).1.transport_headers.lookup "User-Agent"
      = some "custom-agent" :=
  ⟨(C2_frame_amended "E" "ua" true baseReq).1,
   (C2_frame_amended "E" "ua" true baseReq).2.2.1 rfl rfl rfl rfl,
   (C2_frame_amended "E" "ua" true customHeaderReq).2.2.2 "User-Agent" "custom-agent" rfl⟩

/-- C7: two consecutive successful timed calls append exactly two records in
call order while returning the wrapped results; get_last_calls returns the
whole buffer and clears it, so an immediate second retrieval is empty; a send
never clears the buffer, it only ever appends. -/
theorem C7_timing (transport : Request → Outcome) (st : TimingState)
    (r1 r2 : Request) (t1 t2 t3 t4 : Nat) (v1 v2 : SLResult)
    (h1 : transport r1 = Outcome.ok v1) (h2 : transport r2 = Outcome.ok v2) :
    ((timingCall transport t3 t4 (timingCall transport t1 t2 st r1).1 r2).1.last_calls
        = st.last_calls ++ [(r1, t1, t2 - t1), (r2, t3, t4 - t3)])
  ∧ (timingCall transport t1 t2 st r1).2 = Outcome.ok v1
  ∧ (timingCall transport t3 t4 (timingCall transport t1 t2 st r1).1 r2).2 = Outcome.ok v2
  ∧ (get_last_calls
        (timingCall transport t3 t4 (timingCall transport t1 t2 st r1).1 r2).1).1
        = st.last_calls ++ [(r1, t1, t2 - t1), (r2, t3, t4 - t3)]
  ∧ (get_last_calls (get_last_calls
        (timingCall transport t3 t4 (timingCall transport t1 t2 st r1).1 r2).1).2).1 = []
  ∧ (∀ (st' : TimingState) (r : Request) (ta tb : Nat), ∃ tail,
        (timingCall transport ta tb st' r).1.last_calls = st'.last_calls ++ tail) := by
  refine ⟨?_, ?_, ?_, ?_, ?_, fun st' r ta tb => ?_⟩
  · simp [timingCall, h1, h2]
  · simp [timingCall, h1]
  · simp [timingCall, h1, h2]
  · simp [timingCall, get_last_calls, h1, h2]
  · simp [get_last_calls]
  · cases hc : transport r with
    | ok v => exact ⟨[(r, ta, tb - ta)], by simp [timingCall, hc]⟩
    | raised ex => exact ⟨[], by simp [timingCall, hc]⟩
    | crashed ex => exact ⟨[], by simp [timingCall, hc]⟩

/-- C7 witness: two concrete successful calls through an always-ok transport
accumulate exactly the two records in order. -/
theorem C7_timing_witness :
    (timingCall okTransport 10 13
        (timingCall okTransport 5 7 { last_calls := [] } baseReq).1 baseReq).1.last_calls
      = [(baseReq, 5, 2), (baseReq, 10, 3)] := by
  have h := C7_timing okTransport { last_calls := [] } baseReq baseReq 5 7 10 13
    (SLResult.value SLValue.null) (SLResult.value SLValue.null) rfl rfl
  simpa using h.1

/-- C8: the fixture transport returns the exact canned value for a known
service and method pair, and raises the not-implemented error kind — distinct
from the network and protocol kinds — when the service module is missing or
the method attribute is missing; it is a pure lookup with no network I/O. -/
theorem C8_fixture (fixtureModules : String → Option (String → Option SLValue))
    (r : Request) :
    (∀ m v, fixtureModules r.service = some m → m r.method = some v →
        fixtureCall fixtureModules r = Outcome.ok (SLResult.value v))
  ∧ (fixtureModules r.service = none →
        fixtureCall fixtureModules r = Outcome.raised
          { kind := ErrKind.NotImplementedError, code := SLValue.null,
            msg := SLValue.str (r.service ++ " fixture is not implemented") })
  ∧ (∀ m, fixtureModules r.service = some m → m r.method = none →
        fixtureCall fixtureModules r = Outcome.raised
          { kind := ErrKind.NotImplementedError, code := SLValue.null,
            msg := SLValue.str
              (r.service ++ "::" ++ r.method ++ " fixture is not implemented") })
  ∧ ErrKind.NotImplementedError ∉
      [ErrKind.TransportError, ErrKind.SoftLayerAPIError, ErrKind.NotWellFormed,
       ErrKind.UnsupportedEncoding, ErrKind.InvalidCharacter, ErrKind.SpecViolation,
       ErrKind.MethodNotFound, ErrKind.InvalidMethodParameters, ErrKind.InternalError,
       ErrKind.ApplicationError, ErrKind.RemoteSystemError] := by
  refine ⟨fun m v hm hv => ?_, fun hm => ?_, fun m hm hv => ?_, by decide⟩
  · simp [fixtureCall, hm, hv]
  · simp [fixtureCall, hm]
  · simp [fixtureCall, hm, hv]

/-- C8 witness: the concrete one-module fixture environment returns its canned
value for the known pair. -/
theorem C8_fixture_witness :
    fixtureCall fixEnv baseReq = Outcome.ok (SLResult.value (SLValue.str "canned-account")) :=
  (C8_fixture fixEnv baseReq).1 _ _ rfl rfl

/-- C10: a falsy limit (the integer 0) is treated exactly as an unset limit by
both transports — the XML-RPC transport builds the same headers and wire plan,
and the REST transport the same wire plan, as with limit unset — and the REST
transport likewise treats offset 0 as unset; concretely, no resultLimit
header, no limit query parameter, and no offset query parameter appear. -/
theorem C10_falsy_pagination (e ua : String) (tv : Bool) (r : Request) :
    (xmlrpcPrepare e ua tv { r with limit := some 0 }).1.headers
      = (xmlrpcPrepare e ua tv { r with limit := none }).1.headers
  ∧ (xmlrpcPrepare e ua tv { r with limit := some 0 }).2
      = (xmlrpcPrepare e ua tv { r with limit := none }).2
  ∧ (restPrepare e tv { r with limit := some 0 }).2
      = (restPrepare e tv { r with limit := none }).2
  ∧ (restPrepare e tv { r with offset := some 0 }).2
      = (restPrepare e tv { r with offset := none }).2
  ∧ (xmlrpcPrepare e ua tv { baseReq with limit := some 0 }).1.headers.lookup "resultLimit"
      = none
  ∧ (restPrepare e tv { baseReq with limit := some 0 }).2.map
        (fun p => p.params.lookup "limit") = some none
  ∧ (restPrepare e tv { baseReq with offset := some 0 }).2.map
        (fun p => p.params.lookup "offset") = some none := by
  refine ⟨?_, ?_, ?_, ?_, rfl, rfl, rfl⟩
  · simp [xmlrpcPrepare]
  · simp [xmlrpcPrepare]
  · cases hm : r.mask with
    | none => simp [restPrepare, restMethodAndBody, hm]
    | some pm =>
        cases pm with
        | str s => by_cases hs : s = "" <;> simp [restPrepare, restMethodAndBody, hm, hs]
        | dict d => cases hd : d.isEmpty <;> simp [restPrepare, restMethodAndBody, hm, hd]
  · cases hm : r.mask with
    | none => simp [restPrepare, restMethodAndBody, hm]
    | some pm =>
        cases pm with
        | str s => by_cases hs : s = "" <;> simp [restPrepare, restMethodAndBody, hm, hs]
        | dict d => cases hd : d.isEmpty <;> simp [restPrepare, restMethodAndBody, hm, hd]

end SLT
